import Mathlib

/-!
Shallow embedding of `darth_vader_rpi/start_dv.py` (the Darth-Vader-RPi control
engine): the `SoundWrapper` audio handle, the slot-LED sequencer
`turn_on_slot_leds_sequence`, the `ExceptionThread` wrapper, and the main
activation session `activate_dv` (GPIO channel registry construction, sound
loading, the button-polling loop, and teardown).

Side effects against the I/O boundary (GPIO writes, sleeps, audio channel
operations) are modelled as an explicit trace of `Event`s.  Python `float`
durations are represented as rationals; machine behaviour of real hardware and
of `pygame` is out of scope, only the calls the script issues are recorded.
Python exceptions are modelled as `Option String` error results, and the
`try/except` structure of `activate_dv` as explicit result cases.
-/

set_option autoImplicit false

namespace StartDV

/-- Model of Python `str.lower()`, as a map over the characters.  (The
built-in `String.toLower` is extensionally the same but does not reduce in the
kernel, which concrete counterexamples need.) -/
def strToLower (s : String) : String := ⟨s.data.map Char.toLower⟩

/-- Model of Python `s.endswith(suffix)`, as a suffix test on the character
lists. -/
def strEndsWith (s suffix : String) : Bool := suffix.data.isSuffixOf s.data

/-- One observable call to the I/O boundary (GPIO or pygame), as issued by the
script.  `writeHigh`/`writeLow` are `GPIO.output` with `HIGH`/`LOW`,
`setupOut`/`setupInPullUp` are `GPIO.setup` with `OUT` resp. `IN` plus
`pull_up_down=PUD_UP`, `chanPlay ch sid loops` is
`pygame.mixer.Channel(ch).play(sound_of sid, loops)`, `joinThread t` is
`Thread.join` (`t = none` means no timeout argument), and `mixerQuit` is
`pygame.mixer.quit` (never emitted by the script; it exists so that claims
about "releasing the audio subsystem" can be stated). -/
inductive Event where
  | writeHigh (ch : Nat)
  | writeLow (ch : Nat)
  | sleep (secs : ℚ)
  | setupOut (ch : Nat)
  | setupInPullUp (ch : Nat)
  | setVolume (ch : Nat) (vol : ℚ)
  | chanPlay (ch : Nat) (soundId : String) (loops : Int)
  | chanStop (ch : Nat)
  | setprinting (b : Bool)
  | requestStop
  | joinThread (timeout : Option ℚ)
  | gpioCleanup
  | mixerInit
  | mixerQuit
  | threadStart
  deriving DecidableEq, Repr

/-- Model of `turn_off_led(channel)`: `GPIO.output(channel, GPIO.LOW)`. -/
def turn_off_led (channel : Nat) : Event := Event.writeLow channel

/-- Model of `turn_on_led(channel)`: `GPIO.output(channel, GPIO.HIGH)`. -/
def turn_on_led (channel : Nat) : Event := Event.writeHigh channel

/-- Model of the `SoundWrapper` class: the fields set by `__init__`.
The underlying `pygame.mixer.Channel` and `pygame.mixer.Sound` objects are
determined by `channel_id` and `sound_filepath`. -/
structure SoundWrapper where
  sound_id : String
  sound_name : String
  sound_filepath : String
  channel_id : Nat
  mute : Bool
  deriving DecidableEq, Repr

/-- Model of `SoundWrapper.play(loops)`: unconditionally
`self._channel.play(self._pygame_sound, loops)`.  Note that the `mute` flag is
not consulted here (callers of the class check it themselves at two sites). -/
def SoundWrapper.play (sw : SoundWrapper) (loops : Int) : List Event :=
  [Event.chanPlay sw.channel_id sw.sound_id loops]

/-- Model of `SoundWrapper.stop()`: `self._channel.stop()`. -/
def SoundWrapper.stop (sw : SoundWrapper) : List Event :=
  [Event.chanStop sw.channel_id]

/-! ### The slot-LED sequencer (`turn_on_slot_leds_sequence`) -/

/-- The `_ACTION_MODE` sequence constant. -/
def _ACTION_MODE : List (List String) :=
  [["top", "middle", "bottom"],
   ["top", "bottom"],
   ["top", "middle", "bottom"],
   ["top"],
   [],
   ["top", "middle", "bottom"],
   ["top"],
   ["top", "middle", "bottom"],
   ["middle", "bottom"],
   [],
   ["top", "bottom"],
   ["top", "middle", "bottom"],
   ["top", "bottom"],
   [],
   ["top"],
   []]

/-- The `_CALM_MODE` sequence constant. -/
def _CALM_MODE : List (List String) :=
  [["middle"], ["top"], ["middle"], ["top"], ["middle"],
   ["top"], ["top"], [], ["bottom"], []]

/-- The Python `leds_sequence` argument is dynamically typed: a string, a
list, or anything else (the last case only trips the `isinstance` assert). -/
inductive SeqArg where
  | str (s : String)
  | list (seq : List (List String))
  | other
  deriving DecidableEq, Repr

/-- The channel numbers bound to the three slot LEDs: the `top_led`,
`middle_led` and `bottom_led` parameters of `turn_on_slot_leds_sequence`. -/
structure SlotChannels where
  top_led : Nat
  middle_led : Nat
  bottom_led : Nat
  deriving DecidableEq, Repr

/-- The `lcm` dictionary built at the top of `turn_on_slot_leds_sequence`:
`{'top': top_led, 'middle': middle_led, 'bottom': bottom_led}`; lookup of any
other label is a `KeyError` (`none`). -/
def SlotChannels.lcm (c : SlotChannels) : String → Option Nat
  | "top" => some c.top_led
  | "middle" => some c.middle_led
  | "bottom" => some c.bottom_led
  | _ => none

/-- The argument-normalisation prologue of `turn_on_slot_leds_sequence`
(its first two statements): a string is lowercased and must be a key of
`_SEQ_TYPES_MAP` (`assert`, otherwise `AssertionError`), anything that is not
a string must be a list (`assert`).  A list is accepted as-is, with no
inspection of its contents. -/
def validateSeq : SeqArg → Except String (List (List String))
  | SeqArg.str s =>
    let s := strToLower s
    if s = "action" then Except.ok _ACTION_MODE
    else if s = "calm" then Except.ok _CALM_MODE
    else Except.error "AssertionError: Wrong type of leds_sequence"
  | SeqArg.list seq => Except.ok seq
  | SeqArg.other => Except.error "AssertionError: leds_sequence should be a string or a list"

/-- The per-step turn-on loop
`for channel_label in leds_subsequence: channel = lcm[channel_label];
turn_on_led(channel)`.  An unknown label raises `KeyError` before its write;
writes already issued for earlier labels are kept. -/
def turnOnLabels (c : SlotChannels) : List String → List Event × Option String
  | [] => ([], none)
  | l :: ls =>
    match c.lcm l with
    | none => ([], some ("KeyError: " ++ l))
    | some ch =>
      let r := turnOnLabels c ls
      (turn_on_led ch :: r.1, r.2)

/-- One iteration of the sequencer's `while` loop body, after the step
`leds_subsequence` has been selected: turn on the labelled LEDs, sleep
`time_per_step`, and -- only if the step is non-empty -- turn all three slot
LEDs off and sleep `delay_between_steps`. -/
def execStep (c : SlotChannels) (time_per_step delay_between_steps : ℚ)
    (leds_subsequence : List String) : List Event × Option String :=
  match turnOnLabels c leds_subsequence with
  | (evs, some e) => (evs, some e)
  | (evs, none) =>
    let evs := evs ++ [Event.sleep time_per_step]
    if leds_subsequence.isEmpty then (evs, none)
    else
      (evs ++ [turn_off_led c.top_led, turn_off_led c.middle_led,
               turn_off_led c.bottom_led, Event.sleep delay_between_steps], none)

/-- The steps selected by the sequencer's `while` loop, starting from index
`idx`, for `fuel` iterations (the iterations performed before `do_run` is
observed `False`): iteration `k` uses `leds_sequence[(idx+k) % len]`. -/
def visitedSteps (seq : List (List String)) (idx fuel : Nat) : List (List String) :=
  match fuel with
  | 0 => []
  | fuel + 1 => seq.getD (idx % seq.length) [] :: visitedSteps seq (idx + 1) fuel

/-- The sequencer's `while getattr(th, "do_run", True)` loop: `fuel` counts the
iterations executed before the stop flag is observed false.  An empty sequence
raises `ZeroDivisionError` (from `% len(leds_sequence)`); an exception raised
by a step propagates out of the loop, keeping the events issued so far. -/
def runSeqLoop (c : SlotChannels) (time_per_step delay_between_steps : ℚ)
    (seq : List (List String)) (idx : Nat) : Nat → List Event × Option String
  | 0 => ([], none)
  | fuel + 1 =>
    if seq.length = 0 then ([], some "ZeroDivisionError: integer division or modulo by zero")
    else
      match execStep c time_per_step delay_between_steps (seq.getD (idx % seq.length) []) with
      | (evs, some e) => (evs, some e)
      | (evs, none) =>
        let r := runSeqLoop c time_per_step delay_between_steps seq (idx + 1) fuel
        (evs ++ r.1, r.2)

/-- Model of the whole target function `turn_on_slot_leds_sequence`
(parameters in source order): normalise/validate `leds_sequence`, then run the
stepping loop starting at `subseq_idx = 0`. -/
def turn_on_slot_leds_sequence (c : SlotChannels) (leds_sequence : SeqArg)
    (delay_between_steps time_per_step : ℚ) (fuel : Nat) : List Event × Option String :=
  match validateSeq leds_sequence with
  | Except.error e => ([], some e)
  | Except.ok seq => runSeqLoop c time_per_step delay_between_steps seq 0 fuel

/-- Model of the `ExceptionThread` object: it stores the target's arguments
and a captured-exception slot `exc`, initially `None`.  Its constructor (and
`threading.Thread.__init__`) performs no validation of the arguments. -/
structure ExceptionThread where
  channels : SlotChannels
  leds_sequence : SeqArg
  delay_between_steps : ℚ
  time_per_step : ℚ
  exc : Option String
  deriving DecidableEq, Repr

/-- Model of `ExceptionThread(...)` construction, as performed in
`activate_dv`.  The `Except` result records whether construction itself can
fail: it cannot -- the sequence argument is stored unexamined. -/
def mkExceptionThread (c : SlotChannels) (leds_sequence : SeqArg)
    (delay_between_steps time_per_step : ℚ) : Except String ExceptionThread :=
  Except.ok
    { channels := c
      leds_sequence := leds_sequence
      delay_between_steps := delay_between_steps
      time_per_step := time_per_step
      exc := none }

/-- Model of `ExceptionThread.run` after `start()`: invoke the target
`turn_on_slot_leds_sequence` and capture any exception it raises into `exc`. -/
def ExceptionThread.startRun (th : ExceptionThread) (fuel : Nat) :
    List Event × ExceptionThread :=
  let r := turn_on_slot_leds_sequence th.channels th.leds_sequence
    th.delay_between_steps th.time_per_step fuel
  (r.1, { th with exc := r.2 })

/-! ### The GPIO channel registry (`activate_dv`, setup section) -/

/-- One entry of `main_cfg['gpio_channels']`: `channel_id`, `channel_number`,
`channel_name`, and the optional `key` and `led_symbols` fields. -/
structure GpioChannelCfg where
  channel_id : String
  channel_number : Nat
  channel_name : String
  key : Option String
  led_symbols : Option String
  deriving DecidableEq, Repr

/-- The value stored in the `gpio_channels` dictionary for one channel id. -/
structure GpioInfo where
  channel_number : Nat
  channel_name : String
  key : Option String
  led_symbol : Option String
  deriving DecidableEq, Repr

/-- Python-dict assignment `m[k] = v` on an association list: replace in place
if the key is present, append otherwise. -/
def assocSet {α : Type} : List (String × α) → String → α → List (String × α)
  | [], k, v => [(k, v)]
  | (k', v') :: rest, k, v =>
    if k' = k then (k, v) :: rest else (k', v') :: assocSet rest k v

/-- Python-dict lookup `m[k]` / `m.get(k)` on an association list. -/
def assocLookup {α : Type} : List (String × α) → String → Option α
  | [], _ => none
  | (k', v') :: rest, k => if k' = k then some v' else assocLookup rest k

/-- Python `m.setdefault(k, v)`: insert only when the key is absent. -/
def assocSetdefault {α : Type} (m : List (String × α)) (k : String) (v : α) :
    List (String × α) :=
  match assocLookup m k with
  | some _ => m
  | none => m ++ [(k, v)]

/-- The `gpio_channels` registry built by `activate_dv`. -/
abbrev GpioRegistry := List (String × GpioInfo)

/-- The `GPIO.setup` call issued for one configured channel: output for a
`channel_id` ending with `"_led"`, input with pull-up otherwise. -/
def setupEventOf (ch : GpioChannelCfg) : Event :=
  if strEndsWith ch.channel_id "_led" then Event.setupOut ch.channel_number
  else Event.setupInPullUp ch.channel_number

/-- The dictionary value recorded for one configured channel. -/
def gpioInfoOf (ch : GpioChannelCfg) : GpioInfo :=
  { channel_number := ch.channel_number
    channel_name := ch.channel_name
    key := ch.key
    led_symbol := ch.led_symbols }

/-- One iteration of the setup loop `for gpio_ch in main_cfg['gpio_channels']`. -/
def buildRegistryStep (acc : List Event × GpioRegistry) (ch : GpioChannelCfg) :
    List Event × GpioRegistry :=
  (acc.1 ++ [setupEventOf ch], assocSet acc.2 ch.channel_id (gpioInfoOf ch))

/-- The setup loop `for gpio_ch in main_cfg['gpio_channels']`: channels whose
`channel_id` ends with `"_led"` are set up as outputs, all others as inputs
with pull-up; every entry is recorded in the `gpio_channels` dictionary. -/
def buildRegistry (chs : List GpioChannelCfg) : List Event × GpioRegistry :=
  chs.foldl buildRegistryStep ([], [])

/-- One entry of `main_cfg['audio_channels']`: a `channel_id` and a volume. -/
structure AudioChannelCfg where
  channel_id : Nat
  volume : ℚ
  deriving DecidableEq, Repr

/-- The audio-channel loop in `activate_dv`: create each channel and set its
volume. -/
def volumeEvents (acs : List AudioChannelCfg) : List Event :=
  acs.map (fun a => Event.setVolume a.channel_id a.volume)

/-! ### Sound loading (`activate_dv`, sound section) -/

/-- One entry of `main_cfg['quotes'|'songs'|'sound_effects']`.  `mute` and
`loops` are optional keys, read with `sound.get('mute', False)` resp.
`sound.get('loops', 0)`. -/
structure SoundCfg where
  id : String
  name : String
  filename : String
  audio_channel_id : Nat
  mute : Option Bool
  loops : Option Int
  deriving DecidableEq, Repr

/-- The `SoundWrapper(...)` construction performed for one config entry. -/
def mkSoundWrapper (sounds_dir : String) (s : SoundCfg) : SoundWrapper :=
  { sound_id := s.id
    sound_name := s.name
    sound_filepath := sounds_dir ++ "/" ++ s.filename
    channel_id := s.audio_channel_id
    mute := s.mute.getD false }

/-- A value of the `loaded_sounds` dictionary: either the nested quotes
dictionary (stored under the key `"quotes"`) or a `SoundWrapper`. -/
inductive DictVal where
  | dict (m : List (String × SoundWrapper))
  | snd (sw : SoundWrapper)
  deriving DecidableEq, Repr

/-- The `loaded_sounds` dictionary. -/
abbrev LoadedSounds := List (String × DictVal)

/-- Lookup of a registered (non-quote) sound handle: `loaded_sounds[k]` when
the stored value is a `SoundWrapper` (the nested quotes dictionary is not a
handle). -/
def lookupRegistered (ls : LoadedSounds) (k : String) : Option SoundWrapper :=
  match assocLookup ls k with
  | some (DictVal.snd sw) => some sw
  | _ => none

/-- Lookup of a registered quote handle inside the nested
`loaded_sounds['quotes']` dictionary. -/
def quotesLookup (ls : LoadedSounds) (k : String) : Option SoundWrapper :=
  match assocLookup ls "quotes" with
  | some (DictVal.dict m) => assocLookup m k
  | _ => none

/-- The registration statements of the inner sound-loading loop body: a quote
entry goes into the nested `loaded_sounds['quotes']` dictionary, any other
entry at top level, both with `setdefault` semantics (an existing key is kept
untouched); `setdefault` called on a non-dictionary value raises
`AttributeError`, modelled as an error result. -/
def registerSound (isQuote : Bool) (ls : LoadedSounds) (sw : SoundWrapper) :
    LoadedSounds × Option String :=
  if isQuote then
    let ls1 := assocSetdefault ls "quotes" (DictVal.dict [])
    match assocLookup ls1 "quotes" with
    | some (DictVal.dict m) =>
      (assocSet ls1 "quotes" (DictVal.dict (assocSetdefault m sw.sound_id sw)), none)
    | _ => (ls1, some "AttributeError: setdefault on a SoundWrapper")
  else
    (assocSetdefault ls sw.sound_id (DictVal.snd sw), none)

/-- The body of the inner sound-loading loop for a single entry `sound`:
construct the `SoundWrapper`, register it (see `registerSound`), and, when
its id is `'breathing_sound'` and the wrapper is not muted, immediately
`play` the handle registered under that id with the entry's `loops` value
(default 0); `loaded_sounds[sound_id]` raises `KeyError` when the id was
registered only inside the quotes dictionary. -/
def processSound (sounds_dir : String) (isQuote : Bool) (ls : LoadedSounds)
    (sound : SoundCfg) : List Event × LoadedSounds × Option String :=
  let sw := mkSoundWrapper sounds_dir sound
  match registerSound isQuote ls sw with
  | (ls2, some e) => ([], ls2, some e)
  | (ls2, none) =>
    if sw.sound_id = "breathing_sound" ∧ sw.mute = false then
      match lookupRegistered ls2 sw.sound_id with
      | some handle => (handle.play (sound.loops.getD 0), ls2, none)
      | none => ([], ls2, some "KeyError: breathing_sound")
    else ([], ls2, none)

/-- The inner sound-loading loop over one of the three configured lists;
an exception stops the whole load. -/
def loadSoundList (sounds_dir : String) (isQuote : Bool) (ls : LoadedSounds) :
    List SoundCfg → List Event × LoadedSounds × Option String
  | [] => ([], ls, none)
  | s :: rest =>
    match processSound sounds_dir isQuote ls s with
    | (evs, ls2, some e) => (evs, ls2, some e)
    | (evs, ls2, none) =>
      let r := loadSoundList sounds_dir isQuote ls2 rest
      (evs ++ r.1, r.2)

/-- The outer sound-loading loop
`for sound_type in ['quotes', 'songs', 'sound_effects']`. -/
def loadAllSounds (sounds_dir : String) (quotes songs sound_effects : List SoundCfg) :
    List Event × LoadedSounds × Option String :=
  match loadSoundList sounds_dir true [] quotes with
  | (e1, s1, some err) => (e1, s1, some err)
  | (e1, s1, none) =>
    match loadSoundList sounds_dir false s1 songs with
    | (e2, s2, some err) => (e1 ++ e2, s2, some err)
    | (e2, s2, none) =>
      let r := loadSoundList sounds_dir false s2 sound_effects
      (e1 ++ e2 ++ r.1, r.2)

/-- The statement `quotes = list(loaded_sounds['quotes'].values())`: a
`KeyError` if no quote was ever loaded, an `AttributeError` if the key holds a
plain sound. -/
def getQuotesList (ls : LoadedSounds) : Except String (List SoundWrapper) :=
  match assocLookup ls "quotes" with
  | some (DictVal.dict m) => Except.ok (m.map Prod.snd)
  | some (DictVal.snd _) => Except.error "AttributeError: values on a SoundWrapper"
  | none => Except.error "KeyError: quotes"

/-! ### The activation loop (`activate_dv`, `while True` section) -/

/-- Mutable loop variables of `activate_dv`: `pressed_lightsaber` and
`quote_idx`. -/
structure LoopState where
  pressed_lightsaber : Bool
  quote_idx : Nat
  deriving DecidableEq, Repr

/-- One observation point of the loop: either the levels read by
`GPIO.input` on each line (`levels ch` is the digital value of line `ch`;
a pressed button reads low/`false` because of the pull-up) together with the
liveness of the slot-LEDs thread, or the arrival of a `KeyboardInterrupt` at
that iteration. -/
inductive PollInput where
  | poll (levels : Nat → Bool) (thread_alive : Bool)
  | interrupt

/-- How the `while True` loop was left. -/
inductive LoopExit where
  | interrupted
  | threadDead
  | exce (msg : String)
  | ranOut
  deriving DecidableEq, Repr

/-- A placeholder wrapper; only used as the default of a guarded `List.getD`
whose index is always in bounds (mirroring Python indexing). -/
def defaultWrapper : SoundWrapper :=
  { sound_id := "", sound_name := "", sound_filepath := "", channel_id := 0, mute := false }

/-- The `while True:` loop of `activate_dv`.  Per iteration, in source order:
if the lightsaber button reads low, toggle (Drawn plays the retraction sound
and turns off the hard-coded channel `22`; Idle plays the drawing sound, the
hum sound with loops `-1`, and turns on the registered `lightsaber_led`
line), then sleep `0.2`; elif the song button reads low, play
`imperial_march_song`; elif the quotes button reads low, play
`quotes[quote_idx % len(quotes)]` and advance `quote_idx`; elif the slot-LEDs
thread is not alive, set `retcode = 1` and break.  Missing dictionary keys
raise `KeyError` (exception exit), keeping the events already issued. -/
def runLoop (reg : GpioRegistry) (ls : LoadedSounds) (quotes : List SoundWrapper)
    (st : LoopState) : List PollInput → List Event × LoopExit
  | [] => ([], LoopExit.ranOut)
  | PollInput.interrupt :: _ => ([], LoopExit.interrupted)
  | PollInput.poll levels alive :: rest =>
    match assocLookup reg "lightsaber_button" with
    | none => ([], LoopExit.exce "KeyError: lightsaber_button")
    | some lsBtn =>
      if levels lsBtn.channel_number = false then
        if st.pressed_lightsaber then
          match lookupRegistered ls "lightsaber_retraction_sound" with
          | none => ([], LoopExit.exce "KeyError: lightsaber_retraction_sound")
          | some retraction =>
            let evs := retraction.play 0 ++
              [Event.sleep (1/10), turn_off_led 22, Event.sleep (2/10)]
            let r := runLoop reg ls quotes { st with pressed_lightsaber := false } rest
            (evs ++ r.1, r.2)
        else
          match lookupRegistered ls "lightsaber_drawing_sound" with
          | none => ([], LoopExit.exce "KeyError: lightsaber_drawing_sound")
          | some drawing =>
            match lookupRegistered ls "lightsaber_hum_sound" with
            | none => (drawing.play 0, LoopExit.exce "KeyError: lightsaber_hum_sound")
            | some hum =>
              match assocLookup reg "lightsaber_led" with
              | none => (drawing.play 0 ++ hum.play (-1) ++ [Event.sleep (1/10)],
                         LoopExit.exce "KeyError: lightsaber_led")
              | some led =>
                let evs := drawing.play 0 ++ hum.play (-1) ++
                  [Event.sleep (1/10), turn_on_led led.channel_number, Event.sleep (2/10)]
                let r := runLoop reg ls quotes { st with pressed_lightsaber := true } rest
                (evs ++ r.1, r.2)
      else
        match assocLookup reg "song_button" with
        | none => ([], LoopExit.exce "KeyError: song_button")
        | some songBtn =>
          if levels songBtn.channel_number = false then
            match lookupRegistered ls "imperial_march_song" with
            | none => ([], LoopExit.exce "KeyError: imperial_march_song")
            | some song =>
              let evs := song.play 0 ++ [Event.sleep (2/10)]
              let r := runLoop reg ls quotes st rest
              (evs ++ r.1, r.2)
          else
            match assocLookup reg "quotes_button" with
            | none => ([], LoopExit.exce "KeyError: quotes_button")
            | some quotesBtn =>
              if levels quotesBtn.channel_number = false then
                if quotes.length = 0 then
                  ([], LoopExit.exce "ZeroDivisionError: integer division or modulo by zero")
                else
                  let quote := quotes.getD (st.quote_idx % quotes.length) defaultWrapper
                  let evs := quote.play 0 ++ [Event.sleep (2/10)]
                  let r := runLoop reg ls quotes { st with quote_idx := st.quote_idx + 1 } rest
                  (evs ++ r.1, r.2)
              else if alive = false then
                ([], LoopExit.threadDead)
              else
                runLoop reg ls quotes st rest

/-! ### Session teardown and `activate_dv` -/

/-- Full configuration consumed by `activate_dv` (the parts it reads). -/
structure MainCfg where
  gpio_channels : List GpioChannelCfg
  audio_channels : List AudioChannelCfg
  sounds_directory : String
  quotes : List SoundCfg
  songs : List SoundCfg
  sound_effects : List SoundCfg
  slot_leds_sequence : SeqArg
  delay_between_steps : ℚ
  time_per_step : ℚ

/-- The LED turn-off loop of the cleanup block: one `LOW` write for every
registry entry whose channel id ends with `"_led"`. -/
def ledOffEvents (reg : GpioRegistry) : List Event :=
  (reg.filter (fun kv => strEndsWith kv.1 "_led")).map
    (fun kv => turn_off_led kv.2.channel_number)

/-- The audio-channel stop loop of the cleanup block. -/
def chanStopEvents (acs : List AudioChannelCfg) : List Event :=
  acs.map (fun a => Event.chanStop a.channel_id)

/-- The cleanup block at the end of `activate_dv`, run after the
`try/except`, in source order: `GPIO.setprinting(False)`; turn off every
registry channel whose id ends with `"_led"`; if the thread object exists,
set its `do_run` flag to `False` and `join()` it (no timeout); stop every
configured audio channel; `GPIO.cleanup()`. -/
def teardownEvents (reg : GpioRegistry) (thAssigned : Bool)
    (acs : List AudioChannelCfg) : List Event :=
  [Event.setprinting false]
  ++ ledOffEvents reg
  ++ (if thAssigned then [Event.requestStop, Event.joinThread none] else [])
  ++ chanStopEvents acs
  ++ [Event.gpioCleanup]

/-- The outcome of the `try` body plus the matching `except` handler of
`activate_dv`: the events issued up to (and inside) the handler, how the body
ended, and whether `th_slot_leds` was assigned (it is `None` until the
`ExceptionThread(...)` assignment succeeds). -/
def sessionBody (cfg : MainCfg) (polls : List PollInput) :
    List Event × LoopExit × Bool :=
  let rr := buildRegistry cfg.gpio_channels
  let reg := rr.2
  let load := loadAllSounds cfg.sounds_directory cfg.quotes cfg.songs cfg.sound_effects
  let pre := [Event.mixerInit] ++ rr.1 ++ volumeEvents cfg.audio_channels ++ load.1
  match load.2.2 with
  | some e => (pre, LoopExit.exce e, false)
  | none =>
    match getQuotesList load.2.1 with
    | Except.error e => (pre, LoopExit.exce e, false)
    | Except.ok quotes =>
      match assocLookup reg "top_led", assocLookup reg "middle_led",
            assocLookup reg "bottom_led" with
      | some _, some _, some _ =>
        let loop := runLoop reg load.2.1 quotes
          { pressed_lightsaber := false, quote_idx := 0 } polls
        let bodyEvs := pre ++ [Event.threadStart] ++ loop.1
        match loop.2 with
        | LoopExit.interrupted =>
          -- the KeyboardInterrupt handler: play the closing sound if present
          -- and unmuted, then sleep 1 second
          let handler :=
            match lookupRegistered load.2.1 "closing_sound" with
            | some cs => if cs.mute = false then cs.play 0 ++ [Event.sleep 1] else []
            | none => []
          (bodyEvs ++ handler, LoopExit.interrupted, true)
        | ex => (bodyEvs, ex, true)
      | _, _, _ => (pre, LoopExit.exce "KeyError: slot led channel", false)

/-- The `retcode` value returned by `activate_dv` for each way the body can
end (`ranOut` is the model artifact for "still looping": no return yet). -/
def retcodeOfExit : LoopExit → Nat
  | LoopExit.interrupted => 0
  | LoopExit.threadDead => 1
  | LoopExit.exce _ => 1
  | LoopExit.ranOut => 0

/-- Result of one `activate_dv` run: the trace of I/O calls, the exit kind,
and the returned `retcode` (meaningless when `exit = ranOut`). -/
structure ActivationResult where
  trace : List Event
  exit : LoopExit
  retcode : Nat

/-- Model of `activate_dv(main_cfg)` driven by the observation stream
`polls`: run the body; unless the loop is still running, append the teardown
block and return `retcode`. -/
def activate_dv (cfg : MainCfg) (polls : List PollInput) : ActivationResult :=
  let body := sessionBody cfg polls
  match body.2.1 with
  | LoopExit.ranOut => { trace := body.1, exit := LoopExit.ranOut, retcode := 0 }
  | ex =>
    { trace := body.1 ++
        teardownEvents (buildRegistry cfg.gpio_channels).2 body.2.2 cfg.audio_channels
      exit := ex
      retcode := retcodeOfExit ex }

/-! ### Trace observables -/

/-- Total sleeping time of a trace: the duration of the step it represents
(all other calls are modelled as instantaneous). -/
def traceDuration (evs : List Event) : ℚ :=
  (evs.filterMap (fun e => match e with | Event.sleep q => some q | _ => none)).sum

/-- Whether an event is a digital line write. -/
def isLineWrite : Event → Bool
  | Event.writeHigh _ => true
  | Event.writeLow _ => true
  | _ => false

/-- Whether an event is a `HIGH` line write. -/
def isHighWrite : Event → Bool
  | Event.writeHigh _ => true
  | _ => false

/-- Whether an event is a `LOW` line write. -/
def isLowWrite : Event → Bool
  | Event.writeLow _ => true
  | _ => false

/-- Whether an event stops an audio channel. -/
def isChanStop : Event → Bool
  | Event.chanStop _ => true
  | _ => false

/-- Whether an event is the cooperative stop request or the join of the
sequencer thread. -/
def isStopJoin : Event → Bool
  | Event.requestStop => true
  | Event.joinThread _ => true
  | _ => false

/-- Whether an event releases the GPIO lines. -/
def isCleanup : Event → Bool
  | Event.gpioCleanup => true
  | _ => false

/-- Whether an event plays an audio channel. -/
def isChanPlay : Event → Bool
  | Event.chanPlay _ _ _ => true
  | _ => false

/-- Effect of one event on the digital state of the lines
(`Nat → Bool`: line number to level). -/
def applyEvent (st : Nat → Bool) : Event → Nat → Bool
  | Event.writeHigh ch => fun c => if c = ch then true else st c
  | Event.writeLow ch => fun c => if c = ch then false else st c
  | _ => st

/-- Digital line state after a trace, starting from `st`. -/
def applyTrace (evs : List Event) (st : Nat → Bool) : Nat → Bool :=
  evs.foldl applyEvent st

/-- `ordered tr p q` holds when every `p`-event of `tr` occurs strictly
before every `q`-event: from the first `q`-event onward there is no
`p`-event.  (Vacuously true when either kind is absent.) -/
def ordered (tr : List Event) (p q : Event → Bool) : Bool :=
  (tr.dropWhile (fun e => ! q e)).all (fun e => ! p e)

/-! ### Concrete fixtures used by witnesses and counterexamples -/

/-- A small slot-channel binding used in concrete runs. -/
def slotsW : SlotChannels := { top_led := 17, middle_led := 18, bottom_led := 19 }

/-- A sound-config entry fixture. -/
def soundCfg (id name filename : String) (ch : Nat) : SoundCfg :=
  { id := id, name := name, filename := filename, audio_channel_id := ch,
    mute := none, loops := none }

/-- A concrete main configuration.  Its `lightsaber_led` is deliberately wired
to channel number `10` (not `22`) to exercise the lightsaber turn-off path. -/
def demoCfg : MainCfg :=
  { gpio_channels :=
      [{ channel_id := "lightsaber_button", channel_number := 23,
         channel_name := "lightsaber button", key := some "cmd", led_symbols := none },
       { channel_id := "song_button", channel_number := 24,
         channel_name := "song button", key := some "alt", led_symbols := none },
       { channel_id := "quotes_button", channel_number := 25,
         channel_name := "quotes button", key := some "shift", led_symbols := none },
       { channel_id := "lightsaber_led", channel_number := 10,
         channel_name := "lightsaber LED", key := none, led_symbols := some "|" },
       { channel_id := "top_led", channel_number := 17,
         channel_name := "top slot LED", key := none, led_symbols := some "o" },
       { channel_id := "middle_led", channel_number := 18,
         channel_name := "middle slot LED", key := none, led_symbols := some "o" },
       { channel_id := "bottom_led", channel_number := 19,
         channel_name := "bottom slot LED", key := none, led_symbols := some "o" }]
    audio_channels := [{ channel_id := 0, volume := 1 }, { channel_id := 5, volume := 1 }]
    sounds_directory := "/sounds"
    quotes := [soundCfg "dark_side" "Dark side quote" "dark_side.ogg" 3]
    songs := [soundCfg "imperial_march_song" "Imperial march" "imperial.ogg" 4]
    sound_effects :=
      [soundCfg "lightsaber_drawing_sound" "Drawing" "draw.ogg" 5,
       soundCfg "lightsaber_hum_sound" "Hum" "hum.ogg" 6,
       soundCfg "lightsaber_retraction_sound" "Retraction" "retract.ogg" 7,
       soundCfg "closing_sound" "Closing" "closing.ogg" 8]
    slot_leds_sequence := SeqArg.str "action"
    delay_between_steps := 2/5
    time_per_step := 2/5 }

/-- A poll on which exactly the line `pressed` reads low (pressed) and the
sequencer thread is alive. -/
def pressOnly (pressed : Nat) : PollInput :=
  PollInput.poll (fun ch => ! (ch == pressed)) true

/-- A poll on which no button is pressed and the sequencer thread is alive. -/
def quietPoll : PollInput := PollInput.poll (fun _ => true) true

/-- A poll on which no button is pressed and the sequencer thread is dead. -/
def deadPoll : PollInput := PollInput.poll (fun _ => true) false

/-- A short custom sequence fixture. -/
def seqW : List (List String) := [["top"], [], ["middle"]]

/-- The sound id carried by a channel-play event, if any. -/
def playedSoundId : Event → Option String
  | Event.chanPlay _ sid _ => some sid
  | _ => none

/-- The loop count carried by a channel-play event, if any. -/
def playedLoops : Event → Option Int
  | Event.chanPlay _ _ loops => some loops
  | _ => none

/-- Whether a join event has a timeout (a bounded wait). -/
def isBoundedJoin : Event → Bool
  | Event.joinThread (some _) => true
  | _ => false

/-- Whether an event releases the audio subsystem. -/
def isMixerQuit : Event → Bool
  | Event.mixerQuit => true
  | _ => false

/-- The teardown ordering asserted by claim C4, as a predicate on a trace:
first the stop request and the join (bounded), then the LED `LOW` writes, then
the audio-channel stops, then the release of the audio subsystem and of the
hardware lines. -/
def claimTeardownOrder (tr : List Event) : Bool :=
  ordered tr isStopJoin isLowWrite && ordered tr isLowWrite isChanStop &&
  ordered tr isChanStop isCleanup && tr.any isBoundedJoin &&
  tr.any isMixerQuit

/-- The teardown ordering the code actually implements, as a predicate on a
trace: LED `LOW` writes first, then the stop request and the (unbounded)
join, then the audio-channel stops, then the GPIO release; the audio
subsystem itself is never closed. -/
def codeTeardownOrder (tr : List Event) : Bool :=
  ordered tr isLowWrite isStopJoin && ordered tr isStopJoin isChanStop &&
  ordered tr isChanStop isCleanup && tr.all (fun e => ! isBoundedJoin e) &&
  ! tr.any isMixerQuit

/-- A `breathing_sound` entry with no explicit `loops` key. -/
def breathingNoLoops : SoundCfg :=
  { id := "breathing_sound", name := "Breathing", filename := "breathing.ogg",
    audio_channel_id := 2, mute := none, loops := none }

/-- Two song entries that share the identifier `"quotes"`. -/
def songQuotesA : SoundCfg :=
  { id := "quotes", name := "First song named quotes", filename := "a.ogg",
    audio_channel_id := 4, mute := none, loops := none }

/-- See `songQuotesA`. -/
def songQuotesB : SoundCfg :=
  { id := "quotes", name := "Second song named quotes", filename := "b.ogg",
    audio_channel_id := 5, mute := none, loops := none }

/-- The GPIO registry built from `demoCfg`. -/
def demoRegistry : GpioRegistry := (buildRegistry demoCfg.gpio_channels).2

/-- The loaded-sounds dictionary built from `demoCfg`. -/
def demoSounds : LoadedSounds :=
  (loadAllSounds demoCfg.sounds_directory demoCfg.quotes demoCfg.songs
    demoCfg.sound_effects).2.1

/-- The quotes list built from `demoCfg`, as `activate_dv` builds it. -/
def demoQuotes : List SoundWrapper := ((getQuotesList demoSounds).toOption).getD []

/-- Invariant of the `loaded_sounds` dictionary: every plain sound handle is
registered under its own `sound_id`. -/
def WellKeyed (ls : LoadedSounds) : Prop :=
  ∀ k sw, (k, DictVal.snd sw) ∈ ls → sw.sound_id = k

/-- Two song entries that share the identifier `imperial_march_song`. -/
def songImpA : SoundCfg :=
  { id := "imperial_march_song", name := "First imperial march", filename := "ia.ogg",
    audio_channel_id := 4, mute := none, loops := none }

/-- See `songImpA`. -/
def songImpB : SoundCfg :=
  { id := "imperial_march_song", name := "Second imperial march", filename := "ib.ogg",
    audio_channel_id := 5, mute := none, loops := none }

/-! ### Helper lemmas -/

lemma assocLookup_append {α : Type} (a b : List (String × α)) (k : String) :
    assocLookup (a ++ b) k = (assocLookup a k).or (assocLookup b k) := by
  induction a with
  | nil => simp [assocLookup]
  | cons kv a ih =>
    by_cases h : kv.1 = k <;> simp [assocLookup, h, ih]

lemma assocLookup_assocSet_self {α : Type} (m : List (String × α)) (k : String) (v : α) :
    assocLookup (assocSet m k v) k = some v := by
  induction m with
  | nil => simp [assocSet, assocLookup]
  | cons kv m ih =>
    by_cases h : kv.1 = k <;> simp [assocSet, assocLookup, h, ih]

lemma assocLookup_assocSet_ne {α : Type} (m : List (String × α)) (k k' : String) (v : α)
    (h : k' ≠ k) : assocLookup (assocSet m k v) k' = assocLookup m k' := by
  have hkk : ¬ k = k' := fun he => h he.symm
  induction m with
  | nil => simp [assocSet, assocLookup, hkk]
  | cons kv m ih =>
    by_cases hk : kv.1 = k
    · subst hk
      have h2 : ¬ kv.1 = k' := hkk
      simp [assocSet, assocLookup, h2]
    · simp only [assocSet, if_neg hk]
      by_cases hk' : kv.1 = k' <;> simp [assocLookup, hk', ih]

lemma mem_assocSet {α : Type} (m : List (String × α)) (k : String) (v : α)
    (x : String × α) (hx : x ∈ assocSet m k v) : x ∈ m ∨ x = (k, v) := by
  induction m with
  | nil => simpa [assocSet] using hx
  | cons kv m ih =>
    by_cases h : kv.1 = k
    · rw [assocSet, if_pos h] at hx
      rcases List.mem_cons.mp hx with rfl | hx
      · exact Or.inr rfl
      · exact Or.inl (List.mem_cons_of_mem _ hx)
    · rw [assocSet, if_neg h] at hx
      rcases List.mem_cons.mp hx with rfl | hx
      · exact Or.inl (List.mem_cons_self _ _)
      · rcases ih hx with hx | hx
        · exact Or.inl (List.mem_cons_of_mem _ hx)
        · exact Or.inr hx

lemma mem_assocSetdefault {α : Type} (m : List (String × α)) (k : String) (v : α)
    (x : String × α) (hx : x ∈ assocSetdefault m k v) : x ∈ m ∨ x = (k, v) := by
  unfold assocSetdefault at hx
  cases h : assocLookup m k with
  | some w => rw [h] at hx; exact Or.inl hx
  | none =>
    rw [h] at hx
    rcases List.mem_append.mp hx with hx | hx
    · exact Or.inl hx
    · simpa using Or.inr (List.mem_singleton.mp hx)

lemma assocLookup_mem {α : Type} (m : List (String × α)) (k : String) (v : α)
    (h : assocLookup m k = some v) : (k, v) ∈ m := by
  induction m with
  | nil => simp [assocLookup] at h
  | cons kv m ih =>
    by_cases hk : kv.1 = k
    · rw [assocLookup, if_pos hk] at h
      obtain ⟨k1, v1⟩ := kv
      simp only at hk h
      injection h with h2
      subst hk
      subst h2
      exact List.mem_cons_self _ _
    · rw [assocLookup, if_neg hk] at h
      exact List.mem_cons_of_mem _ (ih h)

/-- On a step whose labels are all valid slot labels, the turn-on loop issues
exactly one `HIGH` write per label and raises nothing. -/
lemma turnOnLabels_valid (c : SlotChannels) (S : List String)
    (hv : ∀ l ∈ S, (c.lcm l).isSome = true) :
    turnOnLabels c S = (S.filterMap (fun l => (c.lcm l).map Event.writeHigh), none) := by
  induction S with
  | nil => rfl
  | cons l ls ih =>
    obtain ⟨ch, hch⟩ := Option.isSome_iff_exists.mp (hv l (by simp))
    have hrest : ∀ x ∈ ls, (c.lcm x).isSome = true := fun x hx => hv x (by simp [hx])
    simp [turnOnLabels, hch, List.filterMap_cons, ih hrest, turn_on_led]

/-- A step with valid labels raises nothing. -/
lemma execStep_eq_of_valid (c : SlotChannels) (t d : ℚ) (S : List String)
    (hv : ∀ l ∈ S, (c.lcm l).isSome = true) :
    execStep c t d S = ((execStep c t d S).1, none) := by
  cases S with
  | nil => rfl
  | cons l ls => simp [execStep, turnOnLabels_valid c _ hv]

lemma traceDuration_append (a b : List Event) :
    traceDuration (a ++ b) = traceDuration a + traceDuration b := by
  simp [traceDuration, List.filterMap_append]

lemma traceDuration_highs (c : SlotChannels) (S : List String) :
    traceDuration (S.filterMap (fun l => (c.lcm l).map Event.writeHigh)) = 0 := by
  induction S with
  | nil => rfl
  | cons l ls ih =>
    cases h : c.lcm l <;> simp [List.filterMap_cons, h, traceDuration] <;>
      simpa [traceDuration] using ih

lemma applyTrace_append (a b : List Event) (st : Nat → Bool) :
    applyTrace (a ++ b) st = applyTrace b (applyTrace a st) := by
  simp [applyTrace, List.foldl_append]

lemma visitedSteps_getD (seq : List (List String)) :
    ∀ (fuel idx i : Nat), i < fuel →
    (visitedSteps seq idx fuel).getD i [] = seq.getD ((idx + i) % seq.length) [] := by
  intro fuel
  induction fuel with
  | zero => intro idx i hi; omega
  | succ fuel ih =>
    intro idx i hi
    cases i with
    | zero => simp [visitedSteps]
    | succ j =>
      have := ih (idx + 1) j (by omega)
      simp only [visitedSteps, List.getD_cons_succ, this]
      congr 2
      omega

/-- An error-free run of the sequencer loop produces exactly the
concatenation of the per-step traces of the visited steps. -/
lemma runSeqLoop_ok (c : SlotChannels) (t d : ℚ) (seq : List (List String))
    (hn : seq ≠ []) (hv : ∀ S ∈ seq, ∀ l ∈ S, (c.lcm l).isSome = true) :
    ∀ (fuel idx : Nat),
    runSeqLoop c t d seq idx fuel =
      (((visitedSteps seq idx fuel).map (fun S => (execStep c t d S).1)).flatten, none) := by
  intro fuel
  induction fuel with
  | zero => intro idx; rfl
  | succ fuel ih =>
    intro idx
    have hlen : ¬ seq.length = 0 := by simpa using hn
    have hmem : seq.getD (idx % seq.length) [] ∈ seq := by
      have hlt : idx % seq.length < seq.length :=
        Nat.mod_lt _ (Nat.pos_of_ne_zero hlen)
      rw [List.getD_eq_getElem seq [] hlt]
      exact List.getElem_mem hlt
    have he := execStep_eq_of_valid c t d _ (hv _ hmem)
    rw [runSeqLoop, if_neg hlen, he, ih (idx + 1)]
    simp [visitedSteps]

lemma buildRegistry_foldl_fst (chs : List GpioChannelCfg) :
    ∀ acc : List Event × GpioRegistry,
    (chs.foldl buildRegistryStep acc).1 = acc.1 ++ chs.map setupEventOf := by
  induction chs with
  | nil => intro acc; simp
  | cons ch chs ih =>
    intro acc
    simp [List.foldl_cons, ih, buildRegistryStep, List.append_assoc]

/-- Every element of the LED turn-off segment is a `LOW` write. -/
lemma ledOffEvents_shape (reg : GpioRegistry) (e : Event) (he : e ∈ ledOffEvents reg) :
    ∃ ch, e = Event.writeLow ch := by
  obtain ⟨kv, _, rfl⟩ := List.mem_map.mp he
  exact ⟨kv.2.channel_number, rfl⟩

/-- Every element of the channel-stop segment is a channel stop. -/
lemma chanStopEvents_shape (acs : List AudioChannelCfg) (e : Event)
    (he : e ∈ chanStopEvents acs) : ∃ ch, e = Event.chanStop ch := by
  obtain ⟨a, _, rfl⟩ := List.mem_map.mp he
  exact ⟨a.channel_id, rfl⟩

/-- Every element of the stop-request segment is the stop request or the
unbounded join. -/
lemma stopJoinSegment_shape (thAssigned : Bool) (e : Event)
    (he : e ∈ (if thAssigned then [Event.requestStop, Event.joinThread none] else [])) :
    e = Event.requestStop ∨ e = Event.joinThread none := by
  cases thAssigned <;> simp_all

/-- If no element of `A` is a `q`-event and no element of `B` is a `p`-event,
then in `A ++ B` every `p`-event precedes every `q`-event. -/
lemma ordered_append_of (A B : List Event) (p q : Event → Bool)
    (hA : ∀ e ∈ A, q e = false) (hB : ∀ e ∈ B, p e = false) :
    ordered (A ++ B) p q = true := by
  induction A with
  | nil =>
    simp only [List.nil_append, ordered]
    refine List.all_eq_true.mpr ?_
    intro e he
    have hp : p e = false := hB e ((List.dropWhile_sublist _).subset he)
    simp [hp]
  | cons a A ih =>
    have hqa : q a = false := hA a (by simp)
    have ih2 := ih (fun e he => hA e (by simp [he]))
    simp only [ordered, List.cons_append, List.dropWhile_cons] at ih2 ⊢
    rw [if_pos (by simp [hqa])]
    exact ih2

/-- The teardown block satisfies the order the code implements: LED `LOW`
writes, then stop request and unbounded join, then channel stops, then GPIO
release, with no bounded join and no audio-subsystem release. -/
lemma codeTeardownOrder_teardownEvents (reg : GpioRegistry) (thAssigned : Bool)
    (acs : List AudioChannelCfg) :
    codeTeardownOrder (teardownEvents reg thAssigned acs) = true := by
  have hsplit1 : teardownEvents reg thAssigned acs =
      ([Event.setprinting false] ++ ledOffEvents reg) ++
      ((if thAssigned then [Event.requestStop, Event.joinThread none] else []) ++
        (chanStopEvents acs ++ [Event.gpioCleanup])) := by
    simp [teardownEvents, List.append_assoc]
  have hsplit2 : teardownEvents reg thAssigned acs =
      ([Event.setprinting false] ++ ledOffEvents reg ++
        (if thAssigned then [Event.requestStop, Event.joinThread none] else [])) ++
      (chanStopEvents acs ++ [Event.gpioCleanup]) := by
    simp [teardownEvents, List.append_assoc]
  have hsplit3 : teardownEvents reg thAssigned acs =
      ([Event.setprinting false] ++ ledOffEvents reg ++
        (if thAssigned then [Event.requestStop, Event.joinThread none] else []) ++
        chanStopEvents acs) ++ [Event.gpioCleanup] := by
    simp [teardownEvents, List.append_assoc]
  have h1 : ordered (teardownEvents reg thAssigned acs) isLowWrite isStopJoin = true := by
    rw [hsplit1]
    refine ordered_append_of _ _ _ _ ?_ ?_
    · intro e he
      rcases List.mem_append.mp he with h | h
      · simp at h; subst h; rfl
      · obtain ⟨ch, rfl⟩ := ledOffEvents_shape reg e h; rfl
    · intro e he
      rcases List.mem_append.mp he with h | h
      · rcases stopJoinSegment_shape thAssigned e h with rfl | rfl <;> rfl
      · rcases List.mem_append.mp h with h | h
        · obtain ⟨ch, rfl⟩ := chanStopEvents_shape acs e h; rfl
        · simp at h; subst h; rfl
  have h2 : ordered (teardownEvents reg thAssigned acs) isStopJoin isChanStop = true := by
    rw [hsplit2]
    refine ordered_append_of _ _ _ _ ?_ ?_
    · intro e he
      rcases List.mem_append.mp he with h | h
      · rcases List.mem_append.mp h with h | h
        · simp at h; subst h; rfl
        · obtain ⟨ch, rfl⟩ := ledOffEvents_shape reg e h; rfl
      · rcases stopJoinSegment_shape thAssigned e h with rfl | rfl <;> rfl
    · intro e he
      rcases List.mem_append.mp he with h | h
      · obtain ⟨ch, rfl⟩ := chanStopEvents_shape acs e h; rfl
      · simp at h; subst h; rfl
  have h3 : ordered (teardownEvents reg thAssigned acs) isChanStop isCleanup = true := by
    rw [hsplit3]
    refine ordered_append_of _ _ _ _ ?_ ?_
    · intro e he
      rcases List.mem_append.mp he with h | h
      · rcases List.mem_append.mp h with h | h
        · rcases List.mem_append.mp h with h | h
          · simp at h; subst h; rfl
          · obtain ⟨ch, rfl⟩ := ledOffEvents_shape reg e h; rfl
        · rcases stopJoinSegment_shape thAssigned e h with rfl | rfl <;> rfl
      · obtain ⟨ch, rfl⟩ := chanStopEvents_shape acs e h; rfl
    · intro e he
      simp at he; subst he; rfl
  have hmem : ∀ e ∈ teardownEvents reg thAssigned acs,
      isBoundedJoin e = false ∧ isMixerQuit e = false := by
    intro e he
    simp only [teardownEvents, List.append_assoc, List.mem_append] at he
    rcases he with h | h | h | h | h
    · simp at h; subst h; exact ⟨rfl, rfl⟩
    · obtain ⟨ch, rfl⟩ := ledOffEvents_shape reg e h; exact ⟨rfl, rfl⟩
    · rcases stopJoinSegment_shape thAssigned e h with rfl | rfl <;> exact ⟨rfl, rfl⟩
    · obtain ⟨ch, rfl⟩ := chanStopEvents_shape acs e h; exact ⟨rfl, rfl⟩
    · simp at h; subst h; exact ⟨rfl, rfl⟩
  have h4 : (teardownEvents reg thAssigned acs).all (fun e => ! isBoundedJoin e) = true := by
    refine List.all_eq_true.mpr ?_
    intro e he
    simp [(hmem e he).1]
  have h5 : (teardownEvents reg thAssigned acs).any isMixerQuit = false := by
    refine List.any_eq_false.mpr ?_
    intro e he
    simp [(hmem e he).2]
  simp [codeTeardownOrder, h1, h2, h3, h4, h5]

/-! ### Claims -/

/-- Claim C2: for every step `S` executed by the LED Sequencer (with valid
slot labels): if `S` is non-empty, the step turns on exactly the lines
labelled in `S`, sleeps `time_per_step`, then sets all three slot lines LOW
and sleeps `delay_between_steps`, so the step lasts
`time_per_step + delay_between_steps` and ends with all three lines OFF
(whatever the incoming line state); if `S` is empty, the step performs no
line writes and lasts exactly `time_per_step`, leaving the line state
untouched. -/
theorem slot_step_semantics (c : SlotChannels) (time_per_step delay_between_steps : ℚ)
    (S : List String) (hv : ∀ l ∈ S, (c.lcm l).isSome = true) :
    (execStep c time_per_step delay_between_steps S).2 = none ∧
    (S = [] →
      (execStep c time_per_step delay_between_steps S).1 = [Event.sleep time_per_step] ∧
      ((execStep c time_per_step delay_between_steps S).1.filter isLineWrite = [] ∧
        traceDuration (execStep c time_per_step delay_between_steps S).1 = time_per_step)) ∧
    (S ≠ [] →
      (execStep c time_per_step delay_between_steps S).1 =
        S.filterMap (fun l => (c.lcm l).map Event.writeHigh) ++
        [Event.sleep time_per_step, turn_off_led c.top_led, turn_off_led c.middle_led,
         turn_off_led c.bottom_led, Event.sleep delay_between_steps] ∧
      (traceDuration (execStep c time_per_step delay_between_steps S).1 =
          time_per_step + delay_between_steps ∧
        ∀ st : Nat → Bool, ∀ ch ∈ [c.top_led, c.middle_led, c.bottom_led],
          applyTrace (execStep c time_per_step delay_between_steps S).1 st ch = false)) := by
  have htl := turnOnLabels_valid c S hv
  refine ⟨?_, ?_, ?_⟩
  · have := execStep_eq_of_valid c time_per_step delay_between_steps S hv
    rw [this]
  · intro hS
    subst hS
    refine ⟨rfl, rfl, by simp [traceDuration, execStep, turnOnLabels]⟩
  · intro hS
    have hne : ¬ S.isEmpty = true := by
      cases S with
      | nil => exact absurd rfl hS
      | cons l ls => simp
    have htr : (execStep c time_per_step delay_between_steps S).1 =
        S.filterMap (fun l => (c.lcm l).map Event.writeHigh) ++
        [Event.sleep time_per_step, turn_off_led c.top_led, turn_off_led c.middle_led,
         turn_off_led c.bottom_led, Event.sleep delay_between_steps] := by
      simp [execStep, htl, hne]
    refine ⟨htr, ?_, ?_⟩
    · rw [htr, traceDuration_append, traceDuration_highs]
      simp [traceDuration, turn_off_led]
    · intro st ch hch
      rw [htr, applyTrace_append]
      simp only [applyTrace, applyEvent, List.foldl_cons, List.foldl_nil, turn_off_led]
      fin_cases hch <;> split_ifs <;> simp_all

/-- Witness for C2 at a concrete non-empty step. -/
theorem slot_step_semantics_witness :
    (execStep slotsW (2/5) (1/5) ["top"]).2 = none ∧
    (execStep slotsW (2/5) (1/5) ["top"]).1 =
      [Event.writeHigh 17, Event.sleep (2/5), Event.writeLow 17, Event.writeLow 18,
       Event.writeLow 19, Event.sleep (1/5)] ∧
    traceDuration (execStep slotsW (2/5) (1/5) ["top"]).1 = 2/5 + 1/5 := by
  have h := slot_step_semantics slotsW (2/5) (1/5) ["top"]
    (by intro l hl; simp at hl; subst hl; rfl)
  have h3 := h.2.2 (by simp)
  exact ⟨h.1, by rw [h3.1]; rfl, h3.2.1⟩

/-- Claim C3: for every non-empty sequence and every iteration `i` below the
number of executed iterations, the step executed at the `i`-th iteration is
the one at index `i % n`; a run of the target function on a custom sequence
starts the loop at index 0, and an error-free loop run is exactly the
visited steps executed in order. -/
theorem sequencer_visits_mod (c : SlotChannels) (t d : ℚ)
    (seq : List (List String)) (fuel i : Nat) (hn : seq ≠ []) (hi : i < fuel)
    (hv : ∀ S ∈ seq, ∀ l ∈ S, (c.lcm l).isSome = true) :
    (visitedSteps seq 0 fuel).getD i [] = seq.getD (i % seq.length) [] ∧
    turn_on_slot_leds_sequence c (SeqArg.list seq) d t fuel = runSeqLoop c t d seq 0 fuel ∧
    (runSeqLoop c t d seq 0 fuel).1 =
      ((visitedSteps seq 0 fuel).map (fun S => (execStep c t d S).1)).flatten := by
  refine ⟨?_, rfl, ?_⟩
  · have := visitedSteps_getD seq fuel 0 i hi
    simpa using this
  · rw [runSeqLoop_ok c t d seq hn hv fuel 0]

/-- Witness for C3: the fifth iteration of a three-step custom sequence runs
the step at index `4 % 3 = 1`. -/
theorem sequencer_visits_mod_witness :
    (visitedSteps seqW 0 5).getD 4 [] = seqW.getD (4 % seqW.length) [] ∧
    turn_on_slot_leds_sequence slotsW (SeqArg.list seqW) (2/5) (2/5) 5 =
      runSeqLoop slotsW (2/5) (2/5) seqW 0 5 := by
  have h := sequencer_visits_mod slotsW (2/5) (2/5) seqW 5 4
    (by decide) (by decide) (by decide)
  exact ⟨h.1, h.2.1⟩

/-- Counterexample to claim C6: constructing the sequencer thread with the
unrecognized name `"bogus"` does not fail (no validation happens before the
task starts), and for the malformed custom sequence `[["top", "foo"]]` a
sequencing step does start executing -- the valid label `"top"` is written
HIGH before the bad label raises. -/
theorem seq_construction_never_fails :
    (mkExceptionThread slotsW (SeqArg.str "bogus") (2/5) (2/5)).isOk = true ∧
    (turn_on_slot_leds_sequence slotsW (SeqArg.list [["top", "foo"]]) (2/5) (2/5) 1).1 =
      [Event.writeHigh 17] :=
  ⟨rfl, rfl⟩

/-- Claim C6 (amended): constructing the Sequencer thread never validates the
`leds_sequence` argument and always succeeds; an unrecognized name (or a
non-string non-list argument) instead makes the background task itself fail
with an `AssertionError` as its first action after being started -- before
any step executes and without any line write -- the error being captured in
the thread's `exc` slot; a custom list is accepted by validation whatever its
content (malformed labels only fail later, inside the step that uses them). -/
theorem seq_validation_in_task (c : SlotChannels) (d t : ℚ) (fuel : Nat)
    (s : String) (hs1 : strToLower s ≠ "action") (hs2 : strToLower s ≠ "calm")
    (seq : List (List String)) :
    (mkExceptionThread c (SeqArg.str s) d t).isOk = true ∧
    turn_on_slot_leds_sequence c (SeqArg.str s) d t fuel =
      ([], some "AssertionError: Wrong type of leds_sequence") ∧
    (mkExceptionThread c (SeqArg.str s) d t).map
        (fun th => ((th.startRun fuel).2.exc, (th.startRun fuel).1)) =
      Except.ok (some "AssertionError: Wrong type of leds_sequence", []) ∧
    (mkExceptionThread c SeqArg.other d t).isOk = true ∧
    turn_on_slot_leds_sequence c SeqArg.other d t fuel =
      ([], some "AssertionError: leds_sequence should be a string or a list") ∧
    validateSeq (SeqArg.list seq) = Except.ok seq := by
  have hrun : turn_on_slot_leds_sequence c (SeqArg.str s) d t fuel =
      ([], some "AssertionError: Wrong type of leds_sequence") := by
    simp [turn_on_slot_leds_sequence, validateSeq, hs1, hs2]
  refine ⟨rfl, hrun, ?_, rfl, rfl, rfl⟩
  simp [mkExceptionThread, ExceptionThread.startRun, Except.map, hrun]

/-- Witness for C6 (amended) at the unrecognized name `"bogus"`. -/
theorem seq_validation_in_task_witness :
    (mkExceptionThread slotsW (SeqArg.str "bogus") (2/5) (2/5)).isOk = true ∧
    turn_on_slot_leds_sequence slotsW (SeqArg.str "bogus") (2/5) (2/5) 3 =
      ([], some "AssertionError: Wrong type of leds_sequence") ∧
    validateSeq (SeqArg.list seqW) = Except.ok seqW := by
  have h := seq_validation_in_task slotsW (2/5) (2/5) 3 "bogus"
    (by decide) (by decide) seqW
  exact ⟨h.1, h.2.1, h.2.2.2.2.2⟩

/-- Claim C1 (code bug): on a fresh session whose registry binds
`lightsaber_led` to line 10, pressing the lightsaber button once plays the
drawing sound, plays the hum sound with loops `-1`, and sets line 10 (the
registered lightsaber LED) HIGH; pressing it again plays the retraction sound
once but writes LOW to the hard-coded line `22` -- the registered lightsaber
LED line 10 is never written LOW by the loop. -/
theorem lightsaber_toggle_hardcoded_off :
    (runLoop demoRegistry demoSounds demoQuotes
        { pressed_lightsaber := false, quote_idx := 0 }
        [pressOnly 23, pressOnly 23]).1 =
      [Event.chanPlay 5 "lightsaber_drawing_sound" 0,
       Event.chanPlay 6 "lightsaber_hum_sound" (-1),
       Event.sleep (1/10), Event.writeHigh 10, Event.sleep (2/10),
       Event.chanPlay 7 "lightsaber_retraction_sound" 0,
       Event.sleep (1/10), Event.writeLow 22, Event.sleep (2/10)] ∧
    (assocLookup demoRegistry "lightsaber_led").map GpioInfo.channel_number = some 10 ∧
    Event.writeLow 10 ∉
      (runLoop demoRegistry demoSounds demoQuotes
        { pressed_lightsaber := false, quote_idx := 0 }
        [pressOnly 23, pressOnly 23]).1 := by
  refine ⟨rfl, rfl, ?_⟩
  decide

/-- Claim C8 (code bug): `SoundWrapper.play` issues the channel play call
even on a wrapper whose `mute` flag is true -- it is not a no-op, in
contradiction with the class's own documentation of `mute`. -/
theorem play_ignores_mute :
    SoundWrapper.play
      { sound_id := "imperial_march_song", sound_name := "Imperial march",
        sound_filepath := "/sounds/imperial.ogg", channel_id := 3, mute := true } 0 =
      [Event.chanPlay 3 "imperial_march_song" 0] ∧
    SoundWrapper.play
      { sound_id := "imperial_march_song", sound_name := "Imperial march",
        sound_filepath := "/sounds/imperial.ogg", channel_id := 3, mute := true } (-1) =
      [Event.chanPlay 3 "imperial_march_song" (-1)] :=
  ⟨rfl, rfl⟩

/-- Claim C9: a channel's role is decided solely by the `"_led"` suffix of
its identifier -- the setup event of every configured channel is an output
setup exactly when the id ends with `"_led"` and an input-with-pull-up setup
exactly otherwise -- and the teardown block's `LOW` writes are exactly one
per registry entry whose id ends with `"_led"`. -/
theorem channel_role_by_suffix (chs : List GpioChannelCfg) (reg : GpioRegistry)
    (thAssigned : Bool) (acs : List AudioChannelCfg) :
    (buildRegistry chs).1 = chs.map setupEventOf ∧
    (∀ ch : GpioChannelCfg,
      (setupEventOf ch = Event.setupOut ch.channel_number ↔
        strEndsWith ch.channel_id "_led" = true) ∧
      (setupEventOf ch = Event.setupInPullUp ch.channel_number ↔
        strEndsWith ch.channel_id "_led" = false)) ∧
    (teardownEvents reg thAssigned acs).filter isLowWrite =
      (reg.filter (fun kv => strEndsWith kv.1 "_led")).map
        (fun kv => turn_off_led kv.2.channel_number) := by
  refine ⟨?_, ?_, ?_⟩
  · simpa using buildRegistry_foldl_fst chs ([], [])
  · intro ch
    cases h : strEndsWith ch.channel_id "_led" <;> simp [setupEventOf, h]
  · have hled : (ledOffEvents reg).filter isLowWrite = ledOffEvents reg := by
      refine List.filter_eq_self.mpr ?_
      intro e he
      obtain ⟨ch, rfl⟩ := ledOffEvents_shape reg e he
      rfl
    have hsj : ((if thAssigned then [Event.requestStop, Event.joinThread none]
        else []) : List Event).filter isLowWrite = [] := by
      cases thAssigned <;> rfl
    have hcs : (chanStopEvents acs).filter isLowWrite = [] := by
      refine List.filter_eq_nil_iff.mpr ?_
      intro e he
      obtain ⟨ch, rfl⟩ := chanStopEvents_shape acs e he
      simp [isLowWrite]
    simp only [teardownEvents, List.filter_append, hled, hsj, hcs]
    simp [ledOffEvents, isLowWrite]

/-- Counterexample to claim C4: on a real interrupted session, the teardown
block does not perform its actions in the claimed order (stop request and
bounded join first, then LED `LOW` writes, then channel stops, then release
of the audio subsystem): the LED writes in fact come first, the join is
unbounded, and the audio subsystem is never released. -/
theorem teardown_claim_order_refuted :
    (activate_dv demoCfg [PollInput.interrupt]).trace =
      (sessionBody demoCfg [PollInput.interrupt]).1 ++
        teardownEvents demoRegistry true demoCfg.audio_channels ∧
    claimTeardownOrder (teardownEvents demoRegistry true demoCfg.audio_channels) = false :=
  ⟨rfl, by decide⟩

/-- Claim C4 (amended): on every exit path of the session that leaves the
loop (interrupt, fault, or observed thread death), the trace ends with the
teardown block, whose order is: turn off every LED-registry line, then
request the Sequencer to stop and join it with an unbounded wait, then stop
every configured audio channel, then release the hardware lines; the audio
subsystem itself is not closed. -/
theorem teardown_runs_in_code_order (cfg : MainCfg) (polls : List PollInput)
    (hex : (activate_dv cfg polls).exit ≠ LoopExit.ranOut) :
    ∃ (pre : List Event) (thAssigned : Bool),
      (activate_dv cfg polls).trace =
        pre ++ teardownEvents (buildRegistry cfg.gpio_channels).2 thAssigned
          cfg.audio_channels ∧
      codeTeardownOrder
        (teardownEvents (buildRegistry cfg.gpio_channels).2 thAssigned
          cfg.audio_channels) = true := by
  refine ⟨(sessionBody cfg polls).1, (sessionBody cfg polls).2.2, ?_,
    codeTeardownOrder_teardownEvents _ _ _⟩
  cases hb : (sessionBody cfg polls).2.1 with
  | ranOut => exact absurd (by simp [activate_dv, hb]) hex
  | interrupted => simp [activate_dv, hb]
  | threadDead => simp [activate_dv, hb]
  | exce e => simp [activate_dv, hb]

/-- Witness for C4 (amended) on a concrete interrupted session. -/
theorem teardown_runs_in_code_order_witness :
    ∃ (pre : List Event) (thAssigned : Bool),
      (activate_dv demoCfg [PollInput.interrupt]).trace =
        pre ++ teardownEvents (buildRegistry demoCfg.gpio_channels).2 thAssigned
          demoCfg.audio_channels ∧
      codeTeardownOrder
        (teardownEvents (buildRegistry demoCfg.gpio_channels).2 thAssigned
          demoCfg.audio_channels) = true :=
  teardown_runs_in_code_order demoCfg [PollInput.interrupt] (by decide)

/-- Claim C5: the session returns exit status `0` when it ends via an
external interrupt, and `1` on any fault -- an exception anywhere in the
body, or the Activation Loop observing that the Sequencer's thread is no
longer alive (which, on a poll where no button reads pressed and the thread
is dead, is exactly how the loop exits). -/
theorem retcode_semantics (cfg : MainCfg) (polls : List PollInput) :
    ((activate_dv cfg polls).exit = LoopExit.interrupted →
      (activate_dv cfg polls).retcode = 0) ∧
    ((activate_dv cfg polls).exit = LoopExit.threadDead →
      (activate_dv cfg polls).retcode = 1) ∧
    (∀ e, (activate_dv cfg polls).exit = LoopExit.exce e →
      (activate_dv cfg polls).retcode = 1) ∧
    (∀ (reg : GpioRegistry) (ls : LoadedSounds) (quotes : List SoundWrapper)
       (st : LoopState) (levels : Nat → Bool) (rest : List PollInput)
       (iL iS iQ : GpioInfo),
      assocLookup reg "lightsaber_button" = some iL →
      levels iL.channel_number = true →
      assocLookup reg "song_button" = some iS →
      levels iS.channel_number = true →
      assocLookup reg "quotes_button" = some iQ →
      levels iQ.channel_number = true →
      runLoop reg ls quotes st (PollInput.poll levels false :: rest) =
        ([], LoopExit.threadDead)) := by
  refine ⟨?_, ?_, ?_, ?_⟩
  · intro h
    cases hb : (sessionBody cfg polls).2.1 <;>
      simp_all [activate_dv, hb, retcodeOfExit]
  · intro h
    cases hb : (sessionBody cfg polls).2.1 <;>
      simp_all [activate_dv, hb, retcodeOfExit]
  · intro e h
    cases hb : (sessionBody cfg polls).2.1 <;>
      simp_all [activate_dv, hb, retcodeOfExit]
  · intro reg ls quotes st levels rest iL iS iQ hL hLv hS hSv hQ hQv
    simp [runLoop, hL, hLv, hS, hSv, hQ, hQv]

/-- Witness for C5: a concrete interrupted session returns 0, a concrete
session whose sequencer thread died returns 1. -/
theorem retcode_semantics_witness :
    (activate_dv demoCfg [PollInput.interrupt]).retcode = 0 ∧
    (activate_dv demoCfg [deadPoll]).retcode = 1 := by
  constructor
  · exact (retcode_semantics demoCfg [PollInput.interrupt]).1 (by decide)
  · exact (retcode_semantics demoCfg [deadPoll]).2.1 (by decide)

lemma lookupRegistered_mem (ls : LoadedSounds) (k : String) (sw : SoundWrapper)
    (h : lookupRegistered ls k = some sw) : (k, DictVal.snd sw) ∈ ls := by
  unfold lookupRegistered at h
  cases hq : assocLookup ls k with
  | none => rw [hq] at h; exact absurd h (by simp)
  | some v =>
    cases v with
    | dict m => rw [hq] at h; exact absurd h (by simp)
    | snd sw' =>
      rw [hq] at h
      injection h with h2
      subst h2
      exact assocLookup_mem ls k _ hq

lemma wellKeyed_registerSound (isQuote : Bool) (ls : LoadedSounds) (sw : SoundWrapper)
    (h : WellKeyed ls) : WellKeyed (registerSound isQuote ls sw).1 := by
  intro k sw' hmem
  cases isQuote with
  | false =>
    simp only [registerSound, Bool.false_eq_true, if_false] at hmem
    rcases mem_assocSetdefault _ _ _ _ hmem with hm | hm
    · exact h k sw' hm
    · obtain ⟨hk, hv⟩ := Prod.mk.injEq .. ▸ hm
      injection hv with hv
      subst hk
      subst hv
      rfl
  | true =>
    simp only [registerSound, if_true] at hmem
    have hls1 : ∀ x ∈ assocSetdefault ls "quotes" (DictVal.dict []),
        x ∈ ls ∨ x = ("quotes", DictVal.dict []) := fun x hx =>
      mem_assocSetdefault _ _ _ _ hx
    split at hmem
    case h_1 m heq =>
      simp only at hmem
      rcases mem_assocSet _ _ _ _ hmem with hm | hm
      · rcases hls1 _ hm with hm2 | hm2
        · exact h k sw' hm2
        · exact absurd (congrArg Prod.snd hm2) (by simp)
      · exact absurd (congrArg Prod.snd hm) (by simp)
    case h_2 heq =>
      simp only at hmem
      rcases hls1 _ hmem with hm2 | hm2
      · exact h k sw' hm2
      · exact absurd (congrArg Prod.snd hm2) (by simp)

/-- The full behaviour of one loading-loop iteration needed by the autoplay
claims: well-keyedness is preserved, any event issued is a channel play of
`breathing_sound` with the entry's `loops` value, and an unmuted
`breathing_sound` entry that raises nothing issues exactly one such play. -/
lemma processSound_spec (dir : String) (isQuote : Bool) (ls : LoadedSounds)
    (s : SoundCfg) (h : WellKeyed ls) :
    WellKeyed (processSound dir isQuote ls s).2.1 ∧
    (∀ e ∈ (processSound dir isQuote ls s).1,
      ∃ ch, e = Event.chanPlay ch "breathing_sound" (s.loops.getD 0)) ∧
    (s.id = "breathing_sound" → s.mute.getD false = false →
      (processSound dir isQuote ls s).2.2 = none →
      ∃ ch, (processSound dir isQuote ls s).1 =
        [Event.chanPlay ch "breathing_sound" (s.loops.getD 0)]) := by
  have hwk2 := wellKeyed_registerSound isQuote ls (mkSoundWrapper dir s) h
  rcases hreg : registerSound isQuote ls (mkSoundWrapper dir s) with ⟨ls2, err⟩
  rw [hreg] at hwk2
  simp only at hwk2
  have hid : (mkSoundWrapper dir s).sound_id = s.id := rfl
  have hmu : (mkSoundWrapper dir s).mute = s.mute.getD false := rfl
  cases err with
  | some e =>
    refine ⟨by simp [processSound, hreg, hwk2], by simp [processSound, hreg], ?_⟩
    intro _ _ hnone
    simp [processSound, hreg] at hnone
  | none =>
    by_cases hcond : (mkSoundWrapper dir s).sound_id = "breathing_sound" ∧
        (mkSoundWrapper dir s).mute = false
    · cases hlook : lookupRegistered ls2 "breathing_sound" with
      | none =>
        refine ⟨by simp [processSound, hreg, hcond.1, hcond.2, hlook, hwk2],
          by simp [processSound, hreg, hcond.1, hcond.2, hlook], ?_⟩
        intro _ _ hnone
        simp [processSound, hreg, hcond.1, hcond.2, hlook] at hnone
      | some handle =>
        have hhm := lookupRegistered_mem ls2 _ handle hlook
        have hhid : handle.sound_id = "breathing_sound" := hwk2 _ handle hhm
        refine ⟨by simp [processSound, hreg, hcond.1, hcond.2, hlook, hwk2], ?_, ?_⟩
        · intro e he
          simp [processSound, hreg, hcond.1, hcond.2, hlook, SoundWrapper.play, hhid] at he
          exact ⟨handle.channel_id, by simp [he, hhid]⟩
        · intro _ _ _
          exact ⟨handle.channel_id,
            by simp [processSound, hreg, hcond.1, hcond.2, hlook,
              SoundWrapper.play, hhid]⟩
    · refine ⟨by simp [processSound, hreg, hcond, hwk2],
        by simp [processSound, hreg, hcond], ?_⟩
      intro hbr hmute _
      exact absurd ⟨hid.trans hbr, hmu.trans hmute⟩ hcond

/-- Lifting of `processSound_spec` to one whole configured sound list. -/
lemma loadSoundList_spec (dir : String) (isQuote : Bool) :
    ∀ (l : List SoundCfg) (ls : LoadedSounds), WellKeyed ls →
    WellKeyed (loadSoundList dir isQuote ls l).2.1 ∧
    (∀ e ∈ (loadSoundList dir isQuote ls l).1, ∃ ch s', s' ∈ l ∧
      e = Event.chanPlay ch "breathing_sound" (s'.loops.getD 0)) ∧
    ((loadSoundList dir isQuote ls l).2.2 = none →
      ∀ s ∈ l, s.id = "breathing_sound" → s.mute.getD false = false →
      ∃ ch, Event.chanPlay ch "breathing_sound" (s.loops.getD 0) ∈
        (loadSoundList dir isQuote ls l).1) := by
  intro l
  induction l with
  | nil =>
    intro ls h
    exact ⟨h, by simp [loadSoundList], by simp⟩
  | cons s l' ih =>
    intro ls h
    have hps := processSound_spec dir isQuote ls s h
    rcases hp : processSound dir isQuote ls s with ⟨evs, ls2, err⟩
    rw [hp] at hps
    simp only at hps
    cases err with
    | some e =>
      refine ⟨by simp [loadSoundList, hp, hps.1], ?_, ?_⟩
      · intro ev hev
        simp only [loadSoundList, hp] at hev
        obtain ⟨ch, hch⟩ := hps.2.1 ev hev
        exact ⟨ch, s, by simp, hch⟩
      · intro hnone
        simp [loadSoundList, hp] at hnone
    | none =>
      have ihs := ih ls2 hps.1
      refine ⟨by simpa [loadSoundList, hp] using ihs.1, ?_, ?_⟩
      · intro ev hev
        simp only [loadSoundList, hp, List.mem_append] at hev
        rcases hev with hev | hev
        · obtain ⟨ch, hch⟩ := hps.2.1 ev hev
          exact ⟨ch, s, by simp, hch⟩
        · obtain ⟨ch, s', hs', hch⟩ := ihs.2.1 ev hev
          exact ⟨ch, s', by simp [hs'], hch⟩
      · intro hnone s'' hs'' hbr hmute
        have hrest : (loadSoundList dir isQuote ls2 l').2.2 = none := by
          simpa [loadSoundList, hp] using hnone
        rcases List.mem_cons.mp hs'' with rfl | hs''
        · obtain ⟨ch, hch⟩ := hps.2.2 hbr hmute rfl
          exact ⟨ch, by simp [loadSoundList, hp, hch]⟩
        · obtain ⟨ch, hch⟩ := ihs.2.2 hrest s'' hs'' hbr hmute
          exact ⟨ch, by simp [loadSoundList, hp, hch]⟩

/-- Counterexample to claim C7: an unmuted `breathing_sound` entry whose
config carries no `loops` key is autoplayed at load time with `loops = 0`
(the `sound.get('loops', 0)` default), not with `loop_count = -1`. -/
theorem autoplay_loops_not_minus_one :
    (loadAllSounds "/sounds" [] [] [breathingNoLoops]).1 =
      [Event.chanPlay 2 "breathing_sound" 0] ∧
    breathingNoLoops.mute.getD false = false ∧
    Event.chanPlay 2 "breathing_sound" (-1) ∉
      (loadAllSounds "/sounds" [] [] [breathingNoLoops]).1 :=
  ⟨rfl, rfl, by decide⟩

/-- Claim C7 (amended): during sound loading, every entry whose id is the
designated ambient sound `breathing_sound` and whose mute flag is false is
immediately played with the entry's configured `loops` value (default 0 when
the key is absent), on the channel of the handle registered under that id;
and every play issued at load time carries the sound id `breathing_sound` --
no other sound is autoplayed. -/
theorem autoplay_breathing_only (dir : String) (qs ss es : List SoundCfg)
    (hok : (loadAllSounds dir qs ss es).2.2 = none) :
    (∀ e ∈ (loadAllSounds dir qs ss es).1, isChanPlay e = true →
      playedSoundId e = some "breathing_sound") ∧
    (∀ s ∈ ss ++ es, s.id = "breathing_sound" → s.mute.getD false = false →
      ∃ ch, Event.chanPlay ch "breathing_sound" (s.loops.getD 0) ∈
        (loadAllSounds dir qs ss es).1) := by
  have hwk0 : WellKeyed ([] : LoadedSounds) := fun k sw h => by simp at h
  rcases h1 : loadSoundList dir true [] qs with ⟨e1, s1, err1⟩
  have hq := loadSoundList_spec dir true qs [] hwk0
  rw [h1] at hq
  simp only at hq
  cases err1 with
  | some e => simp [loadAllSounds, h1] at hok
  | none =>
    rcases h2 : loadSoundList dir false s1 ss with ⟨e2, s2, err2⟩
    have hs := loadSoundList_spec dir false ss s1 hq.1
    rw [h2] at hs
    simp only at hs
    cases err2 with
    | some e => simp [loadAllSounds, h1, h2] at hok
    | none =>
      rcases h3 : loadSoundList dir false s2 es with ⟨e3, s3, err3⟩
      have he := loadSoundList_spec dir false es s2 hs.1
      rw [h3] at he
      simp only at he
      cases err3 with
      | some e => simp [loadAllSounds, h1, h2, h3] at hok
      | none =>
        have hev : (loadAllSounds dir qs ss es).1 = e1 ++ e2 ++ e3 := by
          simp [loadAllSounds, h1, h2, h3]
        constructor
        · intro ev hev2 hplay
          rw [hev] at hev2
          rcases List.mem_append.mp hev2 with hm | hm
          · rcases List.mem_append.mp hm with hm | hm
            · obtain ⟨ch, s', _, rfl⟩ := hq.2.1 ev hm
              rfl
            · obtain ⟨ch, s', _, rfl⟩ := hs.2.1 ev hm
              rfl
          · obtain ⟨ch, s', _, rfl⟩ := he.2.1 ev hm
            rfl
        · intro s hsmem hbr hmute
          rw [hev]
          rcases List.mem_append.mp hsmem with hm | hm
          · obtain ⟨ch, hch⟩ := hs.2.2 rfl s hm hbr hmute
            exact ⟨ch, by simp [hch]⟩
          · obtain ⟨ch, hch⟩ := he.2.2 rfl s hm hbr hmute
            exact ⟨ch, by simp [hch]⟩

/-- Witness for C7 (amended): the fixture entry is autoplayed with its
configured default loops value. -/
theorem autoplay_breathing_only_witness :
    ∃ ch, Event.chanPlay ch "breathing_sound" (breathingNoLoops.loops.getD 0) ∈
      (loadAllSounds "/sounds" [] [] [breathingNoLoops]).1 := by
  have h := (autoplay_breathing_only "/sounds" [] [] [breathingNoLoops] (by decide)).2
    breathingNoLoops (by simp) rfl rfl
  exact h

lemma assocLookup_assocSetdefault_ne {α : Type} (m : List (String × α))
    (k k' : String) (v : α) (h : k' ≠ k) :
    assocLookup (assocSetdefault m k v) k' = assocLookup m k' := by
  unfold assocSetdefault
  cases hm : assocLookup m k with
  | some w => rfl
  | none =>
    rw [assocLookup_append]
    have hkk : ¬ k = k' := fun he => h he.symm
    have : assocLookup [(k, v)] k' = none := by
      simp [assocLookup, hkk]
    simp [this]

lemma assocLookup_assocSetdefault_self {α : Type} (m : List (String × α))
    (k : String) (v : α) :
    assocLookup (assocSetdefault m k v) k = some ((assocLookup m k).getD v) := by
  unfold assocSetdefault
  cases hm : assocLookup m k with
  | some w => simp [hm]
  | none => simp [assocLookup_append, hm, assocLookup]

/-- All branches of one loading iteration leave the registration state. -/
lemma processSound_state (dir : String) (q : Bool) (ls : LoadedSounds) (s : SoundCfg) :
    (processSound dir q ls s).2.1 = (registerSound q ls (mkSoundWrapper dir s)).1 := by
  rcases hreg : registerSound q ls (mkSoundWrapper dir s) with ⟨ls2, err⟩
  cases err with
  | some e => simp [processSound, hreg]
  | none =>
    simp only [processSound, hreg]
    split
    · split <;> rfl
    · rfl

/-- Loading a quote entry touches only the `"quotes"` key of the top-level
dictionary. -/
lemma registerSound_true_lookup_ne (ls : LoadedSounds) (sw : SoundWrapper)
    (id : String) (hid : id ≠ "quotes") :
    assocLookup (registerSound true ls sw).1 id = assocLookup ls id := by
  unfold registerSound
  simp only [if_true]
  split
  · simp only
    rw [assocLookup_assocSet_ne _ _ _ _ hid, assocLookup_assocSetdefault_ne _ _ _ _ hid]
  · simp only
    rw [assocLookup_assocSetdefault_ne _ _ _ _ hid]

lemma loadSoundList_true_lookup_ne (dir : String) (id : String) (hid : id ≠ "quotes") :
    ∀ (l : List SoundCfg) (ls : LoadedSounds),
    assocLookup (loadSoundList dir true ls l).2.1 id = assocLookup ls id := by
  intro l
  induction l with
  | nil => intro ls; rfl
  | cons s l' ih =>
    intro ls
    rcases hp : processSound dir true ls s with ⟨evs, ls2, err⟩
    have hst : ls2 = (registerSound true ls (mkSoundWrapper dir s)).1 := by
      have := processSound_state dir true ls s
      rwa [hp] at this
    have h2 : assocLookup ls2 id = assocLookup ls id := by
      rw [hst, registerSound_true_lookup_ne _ _ _ hid]
    cases err with
    | some e => simpa [loadSoundList, hp] using h2
    | none => simp [loadSoundList, hp, ih ls2, h2]

/-- Lookup characterization of loading one non-quote sound list: existing
keys are kept, absent keys get the handle of the first entry carrying them. -/
lemma loadSoundList_false_lookup (dir : String) (id : String) :
    ∀ (l : List SoundCfg) (ls : LoadedSounds),
    (loadSoundList dir false ls l).2.2 = none →
    assocLookup (loadSoundList dir false ls l).2.1 id =
      (assocLookup ls id).or
        ((l.find? (fun s => s.id == id)).map
          (fun s => DictVal.snd (mkSoundWrapper dir s))) := by
  intro l
  induction l with
  | nil =>
    intro ls _
    simp [loadSoundList]
  | cons s l' ih =>
    intro ls hok
    rcases hp : processSound dir false ls s with ⟨evs, ls2, err⟩
    have hst : ls2 = assocSetdefault ls s.id (DictVal.snd (mkSoundWrapper dir s)) := by
      have := processSound_state dir false ls s
      rw [hp] at this
      simpa [registerSound, mkSoundWrapper] using this
    cases err with
    | some e => simp [loadSoundList, hp] at hok
    | none =>
      have hok' : (loadSoundList dir false ls2 l').2.2 = none := by
        simpa [loadSoundList, hp] using hok
      by_cases hsid : s.id = id
      · subst hsid
        have hl2 : assocLookup ls2 s.id =
            some ((assocLookup ls s.id).getD (DictVal.snd (mkSoundWrapper dir s))) := by
          rw [hst, assocLookup_assocSetdefault_self]
        simp only [loadSoundList, hp, ih ls2 hok', hl2, List.find?_cons, beq_self_eq_true]
        cases hls : assocLookup ls s.id <;> simp [hls]
      · have hne : (s.id == id) = false := by simpa using hsid
        have hl2 : assocLookup ls2 id = assocLookup ls id := by
          rw [hst, assocLookup_assocSetdefault_ne _ _ _ _ (fun he => hsid he.symm)]
        simp only [loadSoundList, hp, ih ls2 hok', hl2, List.find?_cons, hne]

/-- Quote registration when the nested quotes dictionary already exists. -/
lemma registerSound_true_dict (ls : LoadedSounds) (sw : SoundWrapper)
    (m : List (String × SoundWrapper))
    (h : assocLookup ls "quotes" = some (DictVal.dict m)) :
    registerSound true ls sw =
      (assocSet ls "quotes" (DictVal.dict (assocSetdefault m sw.sound_id sw)), none) := by
  have h1 : assocSetdefault ls "quotes" (DictVal.dict []) = ls := by
    unfold assocSetdefault
    rw [h]
  unfold registerSound
  rw [if_pos rfl]
  simp only [h1, h]

/-- Lookup characterization of the nested quotes dictionary while loading
quote entries, once the dictionary exists. -/
lemma loadSoundList_true_quotesLookup (dir : String) (id : String) :
    ∀ (l : List SoundCfg) (ls : LoadedSounds) (m : List (String × SoundWrapper)),
    assocLookup ls "quotes" = some (DictVal.dict m) →
    (loadSoundList dir true ls l).2.2 = none →
    quotesLookup (loadSoundList dir true ls l).2.1 id =
      (assocLookup m id).or
        ((l.find? (fun s => s.id == id)).map (mkSoundWrapper dir)) := by
  intro l
  induction l with
  | nil =>
    intro ls m h _
    simp [loadSoundList, quotesLookup, h]
  | cons s l' ih =>
    intro ls m h hok
    have hreg := registerSound_true_dict ls (mkSoundWrapper dir s) m h
    rcases hp : processSound dir true ls s with ⟨evs, ls2, err⟩
    have hst : ls2 =
        assocSet ls "quotes" (DictVal.dict
          (assocSetdefault m (mkSoundWrapper dir s).sound_id (mkSoundWrapper dir s))) := by
      have := processSound_state dir true ls s
      rw [hp, hreg] at this
      simpa using this
    cases err with
    | some e => simp [loadSoundList, hp] at hok
    | none =>
      have hok' : (loadSoundList dir true ls2 l').2.2 = none := by
        simpa [loadSoundList, hp] using hok
      have hq2 : assocLookup ls2 "quotes" = some (DictVal.dict
          (assocSetdefault m (mkSoundWrapper dir s).sound_id (mkSoundWrapper dir s))) := by
        rw [hst, assocLookup_assocSet_self]
      have hsid : (mkSoundWrapper dir s).sound_id = s.id := rfl
      by_cases hcase : s.id = id
      · subst hcase
        have hm' : assocLookup
            (assocSetdefault m (mkSoundWrapper dir s).sound_id (mkSoundWrapper dir s))
            s.id = some ((assocLookup m s.id).getD (mkSoundWrapper dir s)) := by
          rw [hsid, assocLookup_assocSetdefault_self]
        simp only [loadSoundList, hp, ih ls2 _ hq2 hok', hm', List.find?_cons,
          beq_self_eq_true]
        cases hls : assocLookup m s.id <;> simp [hls]
      · have hne : (s.id == id) = false := by simpa using hcase
        have hm' : assocLookup
            (assocSetdefault m (mkSoundWrapper dir s).sound_id (mkSoundWrapper dir s))
            id = assocLookup m id := by
          rw [hsid, assocLookup_assocSetdefault_ne _ _ _ _ (fun he => hcase he.symm)]
        simp only [loadSoundList, hp, ih ls2 _ hq2 hok', hm', List.find?_cons, hne]

/-- Lookup characterization of the quotes dictionary for the actual initial
state of the load (the empty dictionary). -/
lemma loadSoundList_true_from_start (dir : String) (id : String)
    (qs : List SoundCfg) (hok : (loadSoundList dir true [] qs).2.2 = none) :
    quotesLookup (loadSoundList dir true [] qs).2.1 id =
      (qs.find? (fun s => s.id == id)).map (mkSoundWrapper dir) := by
  cases qs with
  | nil => rfl
  | cons s l' =>
    have hreg : registerSound true [] (mkSoundWrapper dir s) =
        ([("quotes", DictVal.dict [(s.id, mkSoundWrapper dir s)])], none) := rfl
    rcases hp : processSound dir true [] s with ⟨evs, ls2, err⟩
    have hst : ls2 = [("quotes", DictVal.dict [(s.id, mkSoundWrapper dir s)])] := by
      have := processSound_state dir true [] s
      rw [hp, hreg] at this
      simpa using this
    cases err with
    | some e => simp [loadSoundList, hp] at hok
    | none =>
      have hok' : (loadSoundList dir true ls2 l').2.2 = none := by
        simpa [loadSoundList, hp] using hok
      have hq2 : assocLookup ls2 "quotes" =
          some (DictVal.dict [(s.id, mkSoundWrapper dir s)]) := by
        rw [hst]; rfl
      have hchar := loadSoundList_true_quotesLookup dir id l' ls2 _ hq2 hok'
      by_cases hcase : s.id = id
      · subst hcase
        have hm : assocLookup [(s.id, mkSoundWrapper dir s)] s.id =
            some (mkSoundWrapper dir s) := by simp [assocLookup]
        simp [loadSoundList, hp, hchar, hm, List.find?_cons]
      · have hne : (s.id == id) = false := by simpa using hcase
        have hm : assocLookup [(s.id, mkSoundWrapper dir s)] id = none := by
          simp [assocLookup, hcase]
        simp [loadSoundList, hp, hchar, hm, List.find?_cons, hne]

/-- The quotes lookup only depends on the value stored under `"quotes"`. -/
lemma quotesLookup_congr (ls ls' : LoadedSounds) (k : String)
    (h : assocLookup ls "quotes" = assocLookup ls' "quotes") :
    quotesLookup ls k = quotesLookup ls' k := by
  unfold quotesLookup
  rw [h]

/-- Counterexample to claim C10: with a non-empty quotes list, two later
song entries both carrying the identifier `"quotes"` load without error, yet
the Sound Bank registers neither handle -- the key `"quotes"` is occupied by
the quote collection itself, so the first-loaded duplicate's handle is not
kept either. -/
theorem duplicate_id_quotes_key_blocked :
    (loadAllSounds "/sounds" [soundCfg "dark_side" "Dark side quote" "dark_side.ogg" 3]
        [songQuotesA, songQuotesB] []).2.2 = none ∧
    songQuotesA.id = "quotes" ∧ songQuotesB.id = "quotes" ∧
    lookupRegistered (loadAllSounds "/sounds"
        [soundCfg "dark_side" "Dark side quote" "dark_side.ogg" 3]
        [songQuotesA, songQuotesB] []).2.1 "quotes" = none :=
  ⟨rfl, rfl, rfl, rfl⟩

/-- Claim C10 (amended): after an error-free load, for every identifier other
than the reserved key `"quotes"`, the registered top-level handle is exactly
the handle of the first entry of the non-quote lists (songs before sound
effects) carrying that identifier -- later duplicates are never registered
and never replace it; likewise the registered quote handle of any identifier
is the handle of the first quotes entry carrying it. -/
theorem duplicate_sound_ids_first_wins (dir : String) (qs ss es : List SoundCfg)
    (id : String) (hid : id ≠ "quotes")
    (hok : (loadAllSounds dir qs ss es).2.2 = none) :
    lookupRegistered (loadAllSounds dir qs ss es).2.1 id =
      ((ss ++ es).find? (fun s => s.id == id)).map (mkSoundWrapper dir) ∧
    (∀ qid, quotesLookup (loadAllSounds dir qs ss es).2.1 qid =
      (qs.find? (fun s => s.id == qid)).map (mkSoundWrapper dir)) := by
  rcases h1 : loadSoundList dir true [] qs with ⟨e1, s1, err1⟩
  cases err1 with
  | some e => simp [loadAllSounds, h1] at hok
  | none =>
    rcases h2 : loadSoundList dir false s1 ss with ⟨e2, s2, err2⟩
    cases err2 with
    | some e => simp [loadAllSounds, h1, h2] at hok
    | none =>
      rcases h3 : loadSoundList dir false s2 es with ⟨e3, s3, err3⟩
      cases err3 with
      | some e => simp [loadAllSounds, h1, h2, h3] at hok
      | none =>
        have hstate : (loadAllSounds dir qs ss es).2.1 = s3 := by
          simp [loadAllSounds, h1, h2, h3]
        have hok2 : (loadSoundList dir false s1 ss).2.2 = none := by rw [h2]
        have hok3 : (loadSoundList dir false s2 es).2.2 = none := by rw [h3]
        have hok1 : (loadSoundList dir true [] qs).2.2 = none := by rw [h1]
        constructor
        · -- top-level lookup characterization
          have hq1 : assocLookup s1 id = none := by
            have := loadSoundList_true_lookup_ne dir id hid qs []
            rw [h1] at this
            simpa [assocLookup] using this
          have hlk2 := loadSoundList_false_lookup dir id ss s1 hok2
          rw [h2] at hlk2
          simp only at hlk2
          have hlk3 := loadSoundList_false_lookup dir id es s2 hok3
          rw [h3] at hlk3
          simp only at hlk3
          rw [hstate]
          unfold lookupRegistered
          rw [hlk3, hlk2, hq1, List.find?_append]
          cases hf1 : ss.find? (fun s => s.id == id) with
          | some s => simp [hf1, Option.or]
          | none =>
            cases hf2 : es.find? (fun s => s.id == id) with
            | some s => simp [hf1, hf2, Option.or]
            | none => simp [hf1, hf2, Option.or]
        · -- nested quotes lookup characterization
          intro qid
          have hfrom := loadSoundList_true_from_start dir qid qs hok1
          rw [h1] at hfrom
          simp only at hfrom
          rw [hstate]
          cases hqv : assocLookup s1 "quotes" with
          | some v =>
            have hp2 := loadSoundList_false_lookup dir "quotes" ss s1 hok2
            rw [h2] at hp2
            simp only at hp2
            have hp3 := loadSoundList_false_lookup dir "quotes" es s2 hok3
            rw [h3] at hp3
            simp only at hp3
            have hq3 : assocLookup s3 "quotes" = assocLookup s1 "quotes" := by
              rw [hp3, hp2, hqv]
              rfl
            rw [quotesLookup_congr s3 s1 qid hq3]
            exact hfrom
          | none =>
            have hq1none : quotesLookup s1 qid = none := by
              unfold quotesLookup
              rw [hqv]
            have hrhs : (qs.find? (fun s => s.id == qid)).map (mkSoundWrapper dir)
                = none := by
              rw [← hfrom, hq1none]
            rw [hrhs]
            have hp2 := loadSoundList_false_lookup dir "quotes" ss s1 hok2
            rw [h2] at hp2
            simp only at hp2
            have hp3 := loadSoundList_false_lookup dir "quotes" es s2 hok3
            rw [h3] at hp3
            simp only at hp3
            rw [hp2, hqv] at hp3
            unfold quotesLookup
            rw [hp3]
            cases hf1 : ss.find? (fun s => s.id == "quotes") with
            | some s => simp [Option.or]
            | none =>
              cases hf2 : es.find? (fun s => s.id == "quotes") with
              | some s => simp [hf1, hf2, Option.or]
              | none => simp [hf1, hf2, Option.or]

/-- Witness for C10 (amended): of two songs sharing one identifier, the
first one's handle is the registered one. -/
theorem duplicate_sound_ids_first_wins_witness :
    lookupRegistered (loadAllSounds "/sounds" [] [songImpA, songImpB] []).2.1
        "imperial_march_song" = some (mkSoundWrapper "/sounds" songImpA) := by
  have h := (duplicate_sound_ids_first_wins "/sounds" [] [songImpA, songImpB] []
    "imperial_march_song" (by decide) (by decide)).1
  rw [h]
  rfl

end StartDV

